import Mathlib

/-
Shallow embedding of `src/opensoundscape/audio.py` (the `Audio` class) for
checking the natural-language specification against the code.

Python floats are modelled as rationals (every IEEE float is a rational, and
all comparisons performed by the code are exact order comparisons).  The
discrete Fourier transform is modelled over the complex numbers.  External
collaborators (the filesystem, librosa, soundfile, and the bandpass filter
from `opensoundscape.audio_tools`, none of which are part of the audited
source file) are modelled as explicit function parameters.
-/

set_option autoImplicit false

namespace Opensoundscape

/-- Kinds of Python exceptions raised by `audio.py`, by constructor:
`attributeError` (from `Audio.__setattr__`), `valueError` (bandpass range
checks and the save extension check), `fileNotFoundError` (missing path),
`opsoLoadAudioInputError` / `opsoLoadAudioInputTooLong` (the custom
exceptions defined at the top of the file), and `zeroDivisionError`
(Python division by zero, reachable in `spectrum`). -/
inductive PyError where
  | attributeError (msg : String)
  | valueError (msg : String)
  | fileNotFoundError (msg : String)
  | opsoLoadAudioInputError (msg : String)
  | opsoLoadAudioInputTooLong (msg : String)
  | zeroDivisionError (msg : String)
  deriving DecidableEq

instance {ε α : Type} [DecidableEq ε] [DecidableEq α] : DecidableEq (Except ε α) := fun x y =>
  match x, y with
  | .error e, .error f =>
    if h : e = f then isTrue (by rw [h]) else isFalse (by simp [h])
  | .ok a, .ok b =>
    if h : a = b then isTrue (by rw [h]) else isFalse (by simp [h])
  | .error _, .ok _ => isFalse (by simp)
  | .ok _, .error _ => isFalse (by simp)

/-- The `Audio` container: `__slots__ = ("samples", "sample_rate")`.
`samples` is the mono sample array (a sequence of floats, modelled as
rationals); `sample_rate` is whatever value was passed to the constructor
(the code never validates it). -/
structure Audio where
  samples : List ℚ
  sample_rate : ℚ
  deriving DecidableEq

/-- The four runtime shapes `Audio.__init__` dispatches on: a path string
(or pathlib object), a `BytesIO` byte stream, a raw numpy sample array, or
anything else (which is rejected). -/
inductive AudioSource where
  | pathInput (p : String)
  | bytesInput (b : List ℕ)
  | samplesInput (xs : List ℚ)
  | otherInput (className : String)
  deriving DecidableEq

/-- External collaborators used by `Audio.__init__`, modelled as explicit
functions: `isFile` is `pathlib.Path.is_file`, `getDuration` is
`librosa.get_duration`, `loadFile` is `librosa.load` (returning mono
samples at the requested rate; arguments: path, target rate, resample
type), `readBytes` is `soundfile.read` (returning mono-mixed samples and
the stream sample rate), `resample` is `librosa.resample` (arguments:
samples, input rate, output rate, resample type). -/
structure Env where
  isFile : String → Bool
  getDuration : String → ℚ
  loadFile : String → ℚ → String → List ℚ
  readBytes : List ℕ → List ℚ × ℚ
  resample : List ℚ → ℚ → ℚ → String → List ℚ

/-- The raw-sample construction path of `Audio.__init__` (the
`np.ndarray` branch): the samples and the rate are stored as given, with
no validation.  `Audio(samples, rate)` calls inside `trim` and `bandpass`
take exactly this branch. -/
def Audio.initFromSamples (xs : List ℚ) (sample_rate : ℚ) : Audio :=
  ⟨xs, sample_rate⟩

/-- `Audio.__init__`: dispatch on the input type, then (path branch) check
existence, check `max_duration` when set, and load; (bytes branch) decode
and resample; (samples branch) store as-is; otherwise raise
`OpsoLoadAudioInputError`.  The stored `sample_rate` is always the
caller-supplied parameter. -/
def Audio.init (env : Env) (audio : AudioSource) (sample_rate : ℚ)
    (max_duration : Option ℚ) (resample_type : String) : Except PyError Audio :=
  match audio with
  | .pathInput p =>
    if env.isFile p = false then
      .error (.fileNotFoundError ("Error: The file " ++ p ++ " does not exist"))
    else if (match max_duration with
             | some d => decide (env.getDuration p > d)
             | none => false) then
      .error (.opsoLoadAudioInputTooLong
        ("Error: The file " ++ p ++ " is longer than max_duration seconds"))
    else
      .ok (Audio.initFromSamples (env.loadFile p sample_rate resample_type) sample_rate)
  | .bytesInput b =>
    let r := env.readBytes b
    .ok (Audio.initFromSamples (env.resample r.1 r.2 sample_rate resample_type) sample_rate)
  | .samplesInput xs => .ok (Audio.initFromSamples xs sample_rate)
  | .otherInput c =>
    .error (.opsoLoadAudioInputError ("Error: cannot load files of class " ++ c))

/-- `Audio.__setattr__(self, name, value)`: unconditionally raises
`AttributeError` (the attribute value is modelled by its repr string). -/
def Audio.setattr (_a : Audio) (name : String) (value : String) : Except PyError Unit :=
  .error (.attributeError
    ("Audio is an immutable container. Tried to set " ++ name ++ " with " ++ value))

/-- Python `int(q)` on a float: truncation toward zero. -/
def pyInt (q : ℚ) : ℤ :=
  if 0 ≤ q then ⌊q⌋ else -⌊-q⌋

/-- Python slice index normalization for a sequence of length `n`:
negative indices count from the end, and indices are clamped into
`[0, n]`. -/
def pySliceIdx (n : ℤ) (i : ℤ) : ℤ :=
  if i < 0 then max 0 (n + i) else min i n

/-- Python `xs[s:e]` with arbitrary integer bounds. -/
def pySlice {α : Type} (xs : List α) (s e : ℤ) : List α :=
  (xs.take (pySliceIdx xs.length e).toNat).drop (pySliceIdx xs.length s).toNat

/-- `Audio.trim(start_time, end_time)`: convert the times to sample
indices by `int(time * sample_rate)`, slice, and build a new `Audio`
(through the raw-sample branch of `__init__`) at the same rate. -/
def Audio.trim (a : Audio) (start_time end_time : ℚ) : Audio :=
  Audio.initFromSamples
    (pySlice a.samples (pyInt (start_time * a.sample_rate)) (pyInt (end_time * a.sample_rate)))
    a.sample_rate

/-- `Audio.bandpass(low_f, high_f, order)`: raise `ValueError` when
`low_f <= 0`, then when `high_f >= sample_rate / 2`; otherwise apply the
external `bandpass_filter` (passed here as the parameter `bpf`, with
arguments samples, low, high, rate, order) — the source passes the
literal `order=9` to it, ignoring the caller-supplied `order` — and wrap
the filtered samples in a new `Audio` at the same rate. -/
def Audio.bandpass (bpf : List ℚ → ℚ → ℚ → ℚ → ℤ → List ℚ) (a : Audio)
    (low_f high_f : ℚ) (order : ℤ) : Except PyError Audio :=
  if low_f ≤ 0 then
    .error (.valueError "low_f must be greater than zero")
  else if high_f ≥ a.sample_rate / 2 then
    .error (.valueError "high_f must be less than sample_rate/2")
  else
    .ok (Audio.initFromSamples (bpf a.samples low_f high_f a.sample_rate 9) a.sample_rate)

/-- The discrete Fourier transform (`scipy.fftpack.fft` convention):
entry `k` is `∑ n, x_n · exp(-2πi·k·n/N)` where `N` is the length. -/
noncomputable def dft (xs : List ℂ) : List ℂ :=
  (List.range xs.length).map fun (k : ℕ) =>
    ∑ n ∈ Finset.range xs.length,
      xs.getD n 0 *
        Complex.exp (-(2 * (Real.pi : ℂ) * Complex.I * (k : ℂ) * (n : ℂ)) / (xs.length : ℂ))

/-- `scipy.fft.fftfreq(N, d)`: bin `k` maps to `k/(d·N)` for the
non-negative-frequency half (`k < ⌈N/2⌉`) and `(k-N)/(d·N)` for the
negative half. -/
def fftfreq (N : ℕ) (d : ℚ) : List ℚ :=
  (List.range N).map fun k =>
    if k < (N + 1) / 2 then (k : ℚ) / (d * N) else ((k : ℚ) - N) / (d * N)

/-- `Audio.spectrum()`: with `N = len(samples)` and `T = 1/sample_rate`,
compute `fft(samples)` and `fftfreq(N, T)`, keep the first `int(N/2)`
entries of each, scale the fft slice by `2.0/N`, and take absolute
values.  The failure points are modelled in evaluation order: Python
raises `ZeroDivisionError` at `T = 1/sample_rate` when the rate is
zero, and `scipy.fftpack.fft` raises `ValueError` on a zero-length
array at the `fft(self.samples)` call — so for an empty buffer the
`2.0/N` division is never reached. -/
noncomputable def Audio.spectrum (a : Audio) : Except PyError (List ℝ × List ℚ) :=
  let N := a.samples.length
  if a.sample_rate = 0 then
    .error (.zeroDivisionError "float division by zero")
  else
    let T : ℚ := 1 / a.sample_rate
    if N = 0 then
      .error (.valueError "invalid number of data points (0) specified")
    else
      let fftFull := dft (a.samples.map fun (q : ℚ) => (q : ℂ))
      let freq := fftfreq N T
      let fftScaled := (fftFull.take (N / 2)).map fun z => ((2 : ℂ) / (N : ℂ)) * z
      let frequencies := freq.take (N / 2)
      .ok (fftScaled.map Complex.abs, frequencies)

/-- Python `path.split(".")` for a non-empty separator: `splitOnDot s`
is the list of maximal `'.'`-free chunks of `s` (so `"".split(".")`
gives `[""]`, and a string with no dot is a single chunk). -/
def splitOnDot : List Char → List (List Char)
  | [] => [[]]
  | c :: rest =>
    let r := splitOnDot rest
    if c = '.' then [] :: r
    else
      match r with
      | [] => [[c]]
      | h :: t => (c :: h) :: t

/-- `Audio.save(path)`: raise `ValueError` unless `path.split(".")[-1]`
equals `"wav"`; otherwise write the samples at the sample rate to the
path (`scipy.io.wavfile.write`; the written file is modelled as the
triple of its path, rate and samples). -/
def Audio.save (a : Audio) (path : List Char) : Except PyError (List Char × ℚ × List ℚ) :=
  if (splitOnDot path).getLastD [] ≠ ['w', 'a', 'v'] then
    .error (.valueError "file extension must be .wav")
  else
    .ok (path, a.sample_rate, a.samples)

/-! ## Claims -/

/-- C1: every attempt to assign any attribute of a constructed `Audio`
raises an `AttributeError` (in particular `samples` and `sample_rate`),
and `trim` and `bandpass` each return a freshly constructed `Audio`
(built via the raw-sample construction path) carrying the receiver's
sample rate, rather than mutating the receiver. -/
theorem C1_audio_immutable :
    (∀ (a : Audio) (name value : String),
      Audio.setattr a name value =
        .error (.attributeError
          ("Audio is an immutable container. Tried to set " ++ name ++ " with " ++ value))) ∧
    (∀ (a : Audio) (s e : ℚ),
      a.trim s e =
        Audio.initFromSamples
          (pySlice a.samples (pyInt (s * a.sample_rate)) (pyInt (e * a.sample_rate)))
          a.sample_rate ∧
      (a.trim s e).sample_rate = a.sample_rate) ∧
    (∀ (bpf : List ℚ → ℚ → ℚ → ℚ → ℤ → List ℚ) (a : Audio) (low high : ℚ) (o : ℤ)
        (out : Audio),
      Audio.bandpass bpf a low high o = .ok out →
        out = Audio.initFromSamples (bpf a.samples low high a.sample_rate 9) a.sample_rate ∧
        out.sample_rate = a.sample_rate) := by
  refine ⟨fun a name value => rfl, fun a s e => ⟨rfl, rfl⟩, ?_⟩
  intro bpf a low high o out h
  by_cases h1 : low ≤ 0
  · simp [Audio.bandpass, h1] at h
  · by_cases h2 : high ≥ a.sample_rate / 2
    · simp [Audio.bandpass, h1, h2] at h
    · simp [Audio.bandpass, h1, h2] at h
      exact ⟨h.symm, by rw [← h]; rfl⟩

/-- C1 witness: the bandpass conjunct applied at a concrete identity
filter, buffer, and cutoffs. -/
theorem C1_audio_immutable_witness :
    (Audio.mk [1] 22050) =
      Audio.initFromSamples
        ((fun xs _ _ _ _ => xs) ([1] : List ℚ) (100 : ℚ) (1000 : ℚ) (22050 : ℚ) (9 : ℤ))
        (22050 : ℚ) ∧
    (Audio.mk [1] 22050).sample_rate = (22050 : ℚ) :=
  C1_audio_immutable.2.2 (fun xs _ _ _ _ => xs) ⟨[1], 22050⟩ 100 1000 4 ⟨[1], 22050⟩
    (by norm_num [Audio.bandpass, Audio.initFromSamples])

/-- C2: for a buffer with positive sample rate `r`, `bandpass` raises
the `ValueError` for the low cutoff when `low ≤ 0`, raises a
`ValueError` whenever `high ≥ r/2`, raises nothing (returns the
filtered buffer) when `0 < low` and `high < r/2`; in particular
`low = 0` fails and `high = r` fails. -/
theorem C2_bandpass_range_check (bpf : List ℚ → ℚ → ℚ → ℚ → ℤ → List ℚ) (a : Audio)
    (low high : ℚ) (order : ℤ) (hr : 0 < a.sample_rate) :
    (low ≤ 0 → Audio.bandpass bpf a low high order =
        .error (.valueError "low_f must be greater than zero")) ∧
    (a.sample_rate / 2 ≤ high →
        ∃ msg, Audio.bandpass bpf a low high order = .error (.valueError msg)) ∧
    (0 < low → high < a.sample_rate / 2 →
        Audio.bandpass bpf a low high order =
          .ok (Audio.initFromSamples (bpf a.samples low high a.sample_rate 9) a.sample_rate)) ∧
    (Audio.bandpass bpf a 0 high order =
        .error (.valueError "low_f must be greater than zero")) ∧
    (∃ msg, Audio.bandpass bpf a low a.sample_rate order = .error (.valueError msg)) := by
  have half_le : a.sample_rate / 2 ≤ a.sample_rate := by linarith
  refine ⟨fun h1 => by simp [Audio.bandpass, h1], ?_, ?_, by simp [Audio.bandpass], ?_⟩
  · intro h2
    by_cases h1 : low ≤ 0
    · exact ⟨"low_f must be greater than zero", by simp [Audio.bandpass, h1]⟩
    · exact ⟨"high_f must be less than sample_rate/2",
        by simp [Audio.bandpass, h1, ge_iff_le, h2]⟩
  · intro h1 h2
    simp [Audio.bandpass, not_le.mpr h1, ge_iff_le, not_le.mpr h2]
  · by_cases h1 : low ≤ 0
    · exact ⟨"low_f must be greater than zero", by simp [Audio.bandpass, h1]⟩
    · exact ⟨"high_f must be less than sample_rate/2",
        by simp [Audio.bandpass, h1, ge_iff_le, half_le]⟩

/-- C2 witness: the characterization applied at a concrete buffer with
rate 22050 and the identity filter. -/
theorem C2_bandpass_range_check_witness :
    ((100 : ℚ) ≤ 0 → Audio.bandpass (fun xs _ _ _ _ => xs) ⟨[1], 22050⟩ 100 1000 9 =
        .error (.valueError "low_f must be greater than zero")) ∧
    ((Audio.mk [1] 22050).sample_rate / 2 ≤ (1000 : ℚ) →
        ∃ msg, Audio.bandpass (fun xs _ _ _ _ => xs) ⟨[1], 22050⟩ 100 1000 9 =
          .error (.valueError msg)) ∧
    ((0 : ℚ) < 100 → (1000 : ℚ) < (Audio.mk [1] 22050).sample_rate / 2 →
        Audio.bandpass (fun xs _ _ _ _ => xs) ⟨[1], 22050⟩ 100 1000 9 =
          .ok (Audio.initFromSamples
            ((fun xs _ _ _ _ => xs) ([1] : List ℚ) (100 : ℚ) (1000 : ℚ)
              (Audio.mk [1] 22050).sample_rate (9 : ℤ))
            (Audio.mk [1] 22050).sample_rate)) ∧
    (Audio.bandpass (fun xs _ _ _ _ => xs) ⟨[1], 22050⟩ 0 1000 9 =
        .error (.valueError "low_f must be greater than zero")) ∧
    (∃ msg, Audio.bandpass (fun xs _ _ _ _ => xs) ⟨[1], 22050⟩ 100
        (Audio.mk [1] 22050).sample_rate 9 = .error (.valueError msg)) :=
  C2_bandpass_range_check (fun xs _ _ _ _ => xs) ⟨[1], 22050⟩ 100 1000 9 (by decide)

/-- C3: the caller-supplied `order` argument has no effect on the
result of `bandpass`: the source passes the literal `9` to the
underlying filter regardless of it. -/
theorem C3_bandpass_order_ignored :
    ∀ (bpf : List ℚ → ℚ → ℚ → ℚ → ℤ → List ℚ) (a : Audio) (low high : ℚ) (order : ℤ),
      Audio.bandpass bpf a low high order = Audio.bandpass bpf a low high 9 :=
  fun _ _ _ _ _ => rfl

/-- C4 counterexample: for a buffer of 10 samples at rate 10,
`trim(1/2, 2)` keeps the 5 samples `[5:10]`, but the claimed formula
`clamp(int(2·10) - int((1/2)·10), 0, 10) = clamp(15, 0, 10)` gives 10,
so the claimed length equation is false. -/
theorem C4_trim_length_counterexample :
    (((Audio.mk (List.replicate 10 0) 10).trim (1/2) 2).samples.length : ℤ) ≠
      max 0 (min (pyInt ((2 : ℚ) * 10) - pyInt ((1/2 : ℚ) * 10)) 10) := by
  norm_num [Audio.trim, Audio.initFromSamples, pySlice, pySliceIdx, pyInt]

/-- C4 (amended): when both converted sample indices are non-negative
(times that map to negative indices instead follow Python's wrap-around
slicing), the length of `trim(t1, t2).samples` is
`max 0 (min (int(t2·r)) N - min (int(t1·r)) N)` — each index is clamped
to `[0, N]` separately before the difference is clamped below at 0; no
error is raised for out-of-range times (`trim` is total). -/
theorem C4_trim_length_amended (a : Audio) (t1 t2 : ℚ)
    (h1 : 0 ≤ pyInt (t1 * a.sample_rate)) (h2 : 0 ≤ pyInt (t2 * a.sample_rate)) :
    ((a.trim t1 t2).samples.length : ℤ) =
      max 0 (min (pyInt (t2 * a.sample_rate)) (a.samples.length : ℤ) -
             min (pyInt (t1 * a.sample_rate)) (a.samples.length : ℤ)) := by
  simp only [Audio.trim, Audio.initFromSamples, pySlice, pySliceIdx,
    List.length_drop, List.length_take]
  rw [if_neg (not_lt.mpr h2), if_neg (not_lt.mpr h1)]
  omega

/-- C4 witness: the amended length formula at a concrete 4-sample buffer
of rate 2 trimmed from 0 s to 1 s. -/
theorem C4_trim_length_amended_witness :
    0 ≤ pyInt ((0 : ℚ) * 2) ∧ 0 ≤ pyInt ((1 : ℚ) * 2) ∧
    (((Audio.mk (List.replicate 4 0) 2).trim 0 1).samples.length : ℤ) =
      max 0 (min (pyInt ((1 : ℚ) * 2)) ((List.replicate 4 (0 : ℚ)).length : ℤ) -
             min (pyInt ((0 : ℚ) * 2)) ((List.replicate 4 (0 : ℚ)).length : ℤ)) := by
  have h1 : 0 ≤ pyInt ((0 : ℚ) * 2) := by norm_num [pyInt]
  have h2 : 0 ≤ pyInt ((1 : ℚ) * 2) := by norm_num [pyInt]
  exact ⟨h1, h2, C4_trim_length_amended ⟨List.replicate 4 0, 2⟩ 0 1 h1 h2⟩

/-- The DFT has as many bins as input samples. -/
theorem dft_length (xs : List ℂ) : (dft xs).length = xs.length := by
  unfold dft
  simp only [List.length_map, List.length_range]

/-- `fftfreq N d` has `N` entries. -/
theorem fftfreq_length (N : ℕ) (d : ℚ) : (fftfreq N d).length = N := by
  simp [fftfreq]

/-- A concrete environment used to instantiate witnesses: one existing
file `present.wav` of duration 10 s. -/
def testEnv : Env where
  isFile p := p == "present.wav"
  getDuration _ := 10
  loadFile _ _ _ := [0]
  readBytes _ := ([0], 44100)
  resample xs _ _ _ := xs

/-- C5 counterexample: on the empty buffer (a valid `Audio` value),
`spectrum` does not return the claimed pair of sequences at all — the
scipy fft raises `ValueError` on a zero-length array — so the
per-buffer description fails for `N = 0`. -/
theorem C5_spectrum_counterexample :
    ¬ ∃ p : List ℝ × List ℚ, Audio.spectrum ⟨[], 22050⟩ = .ok p := by
  rintro ⟨p, hp⟩
  norm_num [Audio.spectrum] at hp
  exact Except.noConfusion hp

/-- C5 (amended): for every buffer with at least one sample and nonzero
sample rate, `spectrum` returns parallel magnitude and frequency
sequences, both of length `⌊N/2⌋`, the magnitudes being the absolute
values of `2/N` times the first `⌊N/2⌋` DFT entries; and `spectrum` is
a pure function of `samples` and `sample_rate` alone. -/
theorem C5_spectrum_amended (a : Audio) (h : a.samples.length ≠ 0)
    (hr : a.sample_rate ≠ 0) :
    (∃ mags freqs, Audio.spectrum a = .ok (mags, freqs) ∧
      mags.length = a.samples.length / 2 ∧
      freqs.length = a.samples.length / 2 ∧
      mags = ((dft (a.samples.map fun (q : ℚ) => (q : ℂ))).take (a.samples.length / 2)).map
        (fun z => Complex.abs (((2 : ℂ) / (a.samples.length : ℂ)) * z))) ∧
    (∀ b : Audio, a.samples = b.samples → a.sample_rate = b.sample_rate →
      Audio.spectrum a = Audio.spectrum b) := by
  have hspec : Audio.spectrum a =
      .ok ((((dft (a.samples.map fun (q : ℚ) => (q : ℂ))).take (a.samples.length / 2)).map
              (fun z => ((2 : ℂ) / (a.samples.length : ℂ)) * z)).map Complex.abs,
           (fftfreq a.samples.length (1 / a.sample_rate)).take (a.samples.length / 2)) := by
    simp only [Audio.spectrum]
    rw [if_neg hr, if_neg h]
  constructor
  · refine ⟨_, _, hspec, ?_, ?_, ?_⟩
    · simp only [List.length_map, List.length_take, dft_length]
      exact Nat.min_eq_left (Nat.div_le_self _ _)
    · simp only [List.length_take, fftfreq_length]
      exact Nat.min_eq_left (Nat.div_le_self _ _)
    · simp only [List.map_map]
      rfl
  · intro b hs hrr
    have : a = b := by
      cases a; cases b
      simp_all
    rw [this]

/-- C5 witness: the amended spectrum contract at the concrete two-sample
buffer `[1, 2]` with rate 4. -/
theorem C5_spectrum_amended_witness :
    (Audio.mk [1, 2] 4).samples.length ≠ 0 ∧ (Audio.mk [1, 2] 4).sample_rate ≠ 0 ∧
    ∃ mags freqs, Audio.spectrum ⟨[1, 2], 4⟩ = .ok (mags, freqs) ∧
      mags.length = (Audio.mk [1, 2] 4).samples.length / 2 ∧
      freqs.length = (Audio.mk [1, 2] 4).samples.length / 2 ∧
      mags = ((dft ((Audio.mk [1, 2] 4).samples.map fun (q : ℚ) => (q : ℂ))).take
          ((Audio.mk [1, 2] 4).samples.length / 2)).map
        (fun z => Complex.abs (((2 : ℂ) / ((Audio.mk [1, 2] 4).samples.length : ℂ)) * z)) := by
  have h : (Audio.mk ([1, 2] : List ℚ) 4).samples.length ≠ 0 := by simp
  have hr : (Audio.mk ([1, 2] : List ℚ) 4).sample_rate ≠ 0 := by norm_num
  exact ⟨h, hr, (C5_spectrum_amended ⟨[1, 2], 4⟩ h hr).1⟩

/-- C6 counterexample: `spectrum` on an empty buffer does fail — the
scipy fft raises `ValueError` on the zero-length array before any of
the later steps run — contradicting the claim that the call does not
fail. -/
theorem C6_spectrum_empty_counterexample :
    Audio.spectrum ⟨[], 8000⟩ =
      .error (.valueError "invalid number of data points (0) specified") := by
  norm_num [Audio.spectrum]

/-- C6 (amended): an empty buffer is a valid, constructible `Audio`
value, but `spectrum()` on it fails: `scipy.fftpack.fft` raises
`ValueError` on the zero-length array at the `fft(self.samples)` call.
The claim was right that the `2.0/N` division itself is never taken at
`N = 0` — the fft call fails first — but wrong that the call does not
fail. -/
theorem C6_spectrum_empty_amended (env : Env) (r : ℚ) (rt : String) (hr : r ≠ 0) :
    Audio.init env (.samplesInput []) r none rt = .ok ⟨[], r⟩ ∧
    Audio.spectrum ⟨[], r⟩ =
      .error (.valueError "invalid number of data points (0) specified") := by
  refine ⟨rfl, ?_⟩
  simp [Audio.spectrum, hr]

/-- C6 witness: the amended statement at rate 44100 in the concrete
test environment. -/
theorem C6_spectrum_empty_amended_witness :
    (44100 : ℚ) ≠ 0 ∧
    (Audio.init testEnv (.samplesInput []) 44100 none "kaiser_fast" = .ok ⟨[], 44100⟩ ∧
     Audio.spectrum ⟨[], 44100⟩ =
       .error (.valueError "invalid number of data points (0) specified")) :=
  ⟨by norm_num, C6_spectrum_empty_amended testEnv 44100 "kaiser_fast" (by norm_num)⟩

/-- C7 counterexample: the raw-sample construction path accepts a
non-positive sample rate without complaint — `Audio(np.array([0]),
sample_rate=-1)` succeeds and stores `-1` — so "sample_rate > 0 in
every constructed instance" is false. -/
theorem C7_sample_rate_counterexample :
    Audio.init testEnv (.samplesInput [0]) (-1) none "kaiser_fast" = .ok ⟨[0], -1⟩ ∧
    ¬ (0 < (Audio.mk [0] (-1)).sample_rate) := by
  refine ⟨rfl, ?_⟩
  norm_num

/-- C7 (amended): the constructor performs no validation of the rate;
in every successful construction (any of the paths) the stored
`sample_rate` equals the caller-supplied argument, so it is positive
exactly when the caller passes a positive value. -/
theorem C7_sample_rate_amended (env : Env) (src : AudioSource) (r : ℚ)
    (maxd : Option ℚ) (rt : String) (a : Audio)
    (h : Audio.init env src r maxd rt = .ok a) :
    a.sample_rate = r ∧ (0 < r → 0 < a.sample_rate) := by
  suffices hs : a.sample_rate = r by exact ⟨hs, fun hp => hs ▸ hp⟩
  cases src with
  | pathInput p =>
    simp only [Audio.init] at h
    split at h
    · exact absurd h (by simp)
    · split at h
      · exact absurd h (by simp)
      · injection h with h2
        rw [← h2]
        rfl
  | bytesInput b =>
    simp only [Audio.init] at h
    injection h with h2
    rw [← h2]
    rfl
  | samplesInput xs =>
    simp only [Audio.init] at h
    injection h with h2
    rw [← h2]
    rfl
  | otherInput c =>
    exact absurd h (by simp [Audio.init])

/-- C7 witness: the amended statement at a concrete raw-sample
construction with rate 22050. -/
theorem C7_sample_rate_amended_witness :
    Audio.init testEnv (.samplesInput [5]) 22050 none "kaiser_fast" = .ok ⟨[5], 22050⟩ ∧
    ((Audio.mk [5] 22050).sample_rate = 22050 ∧
     (0 < (22050 : ℚ) → 0 < (Audio.mk [5] 22050).sample_rate)) := by
  have h : Audio.init testEnv (.samplesInput [5]) 22050 none "kaiser_fast" =
      .ok ⟨[5], 22050⟩ := rfl
  exact ⟨h, C7_sample_rate_amended testEnv _ 22050 none "kaiser_fast" ⟨[5], 22050⟩ h⟩

/-- C8: path construction raises `FileNotFoundError` when the path is
not an existing file, raises `OpsoLoadAudioInputTooLong` when the file
exists, `max_duration` is set, and the duration exceeds it; in either
case no `Audio` instance is produced. -/
theorem C8_path_construction_errors (env : Env) (p : String) (r : ℚ)
    (maxd : Option ℚ) (d : ℚ) (rt : String) :
    (env.isFile p = false →
      Audio.init env (.pathInput p) r maxd rt =
        .error (.fileNotFoundError ("Error: The file " ++ p ++ " does not exist")) ∧
      ∀ a : Audio, Audio.init env (.pathInput p) r maxd rt ≠ .ok a) ∧
    (env.isFile p = true → maxd = some d → d < env.getDuration p →
      Audio.init env (.pathInput p) r maxd rt =
        .error (.opsoLoadAudioInputTooLong
          ("Error: The file " ++ p ++ " is longer than max_duration seconds")) ∧
      ∀ a : Audio, Audio.init env (.pathInput p) r maxd rt ≠ .ok a) := by
  constructor
  · intro h1
    have he : Audio.init env (.pathInput p) r maxd rt =
        .error (.fileNotFoundError ("Error: The file " ++ p ++ " does not exist")) := by
      simp [Audio.init, h1]
    exact ⟨he, fun a ha => by rw [he] at ha; cases ha⟩
  · intro h1 h2 h3
    subst h2
    have he : Audio.init env (.pathInput p) r (some d) rt =
        .error (.opsoLoadAudioInputTooLong
          ("Error: The file " ++ p ++ " is longer than max_duration seconds")) := by
      simp [Audio.init, h1, gt_iff_lt, h3]
    exact ⟨he, fun a ha => by rw [he] at ha; cases ha⟩

/-- C8 witness: both error branches in the concrete test environment
(one missing file, one 10-second file against a 3-second ceiling). -/
theorem C8_path_construction_errors_witness :
    (testEnv.isFile "missing.wav" = false ∧
      Audio.init testEnv (.pathInput "missing.wav") 22050 none "kaiser_fast" =
        .error (.fileNotFoundError
          ("Error: The file " ++ "missing.wav" ++ " does not exist"))) ∧
    (testEnv.isFile "present.wav" = true ∧ (3 : ℚ) < testEnv.getDuration "present.wav" ∧
      Audio.init testEnv (.pathInput "present.wav") 22050 (some 3) "kaiser_fast" =
        .error (.opsoLoadAudioInputTooLong
          ("Error: The file " ++ "present.wav" ++ " is longer than max_duration seconds"))) := by
  have h1 : testEnv.isFile "missing.wav" = false := by decide
  have h2 : testEnv.isFile "present.wav" = true := by decide
  have h3 : (3 : ℚ) < testEnv.getDuration "present.wav" := by norm_num [testEnv]
  exact ⟨⟨h1, ((C8_path_construction_errors testEnv "missing.wav" 22050 none 0
      "kaiser_fast").1 h1).1⟩,
    ⟨h2, h3, ((C8_path_construction_errors testEnv "present.wav" 22050 (some 3) 3
      "kaiser_fast").2 h2 rfl h3).1⟩⟩

/-- C9: `save(path)` raises `ValueError` whenever the extension token
(the last `.`-separated chunk of the path) is not `wav`, and in that
case no file is written (the write happens only in the other branch). -/
theorem C9_save_rejects_non_wav (a : Audio) (path : List Char)
    (h : (splitOnDot path).getLastD [] ≠ ['w', 'a', 'v']) :
    Audio.save a path = .error (.valueError "file extension must be .wav") ∧
    ∀ f, Audio.save a path ≠ .ok f := by
  have he : Audio.save a path = .error (.valueError "file extension must be .wav") := by
    unfold Audio.save
    rw [if_pos h]
  exact ⟨he, fun f hf => by rw [he] at hf; cases hf⟩

/-- C9 witness: saving to `x.mp3` fails and writes nothing. -/
theorem C9_save_rejects_non_wav_witness :
    (splitOnDot ['x', '.', 'm', 'p', '3']).getLastD [] ≠ ['w', 'a', 'v'] ∧
    Audio.save ⟨[1], 22050⟩ ['x', '.', 'm', 'p', '3'] =
      .error (.valueError "file extension must be .wav") := by
  have h : (splitOnDot ['x', '.', 'm', 'p', '3']).getLastD [] ≠ ['w', 'a', 'v'] := by
    decide
  exact ⟨h, (C9_save_rejects_non_wav ⟨[1], 22050⟩ ['x', '.', 'm', 'p', '3'] h).1⟩

/-- C10: the extension check is exactly case-sensitive equality of the
last `.`-separated token with `wav`: `save` raises iff that token
differs from `wav`; the dotless path `wav` passes and is written, while
`x.WAV` is rejected. -/
theorem C10_save_extension_exact :
    (∀ (a : Audio) (path : List Char),
      Audio.save a path = .error (.valueError "file extension must be .wav") ↔
        (splitOnDot path).getLastD [] ≠ ['w', 'a', 'v']) ∧
    (∀ a : Audio,
      Audio.save a ['w', 'a', 'v'] = .ok (['w', 'a', 'v'], a.sample_rate, a.samples)) ∧
    (∀ a : Audio,
      Audio.save a ['x', '.', 'W', 'A', 'V'] =
        .error (.valueError "file extension must be .wav")) := by
  refine ⟨fun a path => ?_, fun a => ?_, fun a => ?_⟩
  · unfold Audio.save
    split_ifs with h
    · exact iff_of_true rfl h
    · exact iff_of_false (by simp) h
  · unfold Audio.save
    rw [if_neg (by decide)]
  · unfold Audio.save
    rw [if_pos (by decide)]

end Opensoundscape
